import Mathlib

/-
  Verification of the mcp-obsidian-enhanced adapter layer.

  Shallow embedding of the repository's request/response translation and
  error-normalization layer:
    * src/mcp_obsidian/utils/errors.py   — the error taxonomy
    * src/mcp_obsidian/obsidian.py       — ObsidianClient (_safe_call, file
      operations, parse_frontmatter, get_batch_file_contents)
    * src/mcp_obsidian/tools/base.py     — ToolHandler.handle_error,
      validate_filepath, validate_dirpath
    * src/mcp_obsidian/tools/files.py    — per-tool validate_args / run_tool
    * src/mcp_obsidian/server.py         — obsidian_search query rewriting,
      obsidian_create_note metadata handling

  Python strings are modelled as lists of characters (Str); network effects
  are modelled by passing the outcome of the underlying HTTP call explicitly
  (CallOutcome) and by recording the requests an operation issues
  (HttpRequest).  Raising an exception is modelled with Except.
-/

abbrev Str := List Char

/-- Python str.startswith. -/
def pyStartswith (pre s : Str) : Bool := pre.isPrefixOf s

/-- Python str.endswith. -/
def pyEndswith (suf s : Str) : Bool := suf.isSuffixOf s

/-- Index of the first occurrence of needle in hay (Python str.find with
result -1 modelled as none). -/
def findSub (needle : Str) : Str → Option Nat
  | [] => if needle = [] then some 0 else none
  | c :: rest =>
    if needle.isPrefixOf (c :: rest) then some 0
    else (findSub needle rest).map (· + 1)

/-- Python substring containment (the `in` operator on strings). -/
def containsSub (needle hay : Str) : Bool := (findSub needle hay).isSome

/-- Python str.split with a non-empty separator, fuel-driven left-to-right
non-overlapping scan; the fuel (length of the string plus one) always
suffices for a non-empty separator. -/
def pySplitFuel (sep : Str) : Nat → Str → List Str
  | 0, s => [s]
  | fuel + 1, s =>
    match findSub sep s with
    | none => [s]
    | some i => s.take i :: pySplitFuel sep fuel (s.drop (i + sep.length))

/-- Python str.split. -/
def pySplit (sep s : Str) : List Str := pySplitFuel sep (s.length + 1) s

/-- Python str.strip (whitespace from both ends). -/
def pyStrip (s : Str) : Str :=
  ((s.dropWhile Char.isWhitespace).reverse.dropWhile Char.isWhitespace).reverse

/-- Python truthiness of an optional string: None and the empty string are
falsy (the `if not x` test on args.get results). -/
def pyFalsyStr (s : Option Str) : Bool :=
  match s with
  | none => true
  | some t => t.isEmpty

/-
  utils/errors.py — the exception taxonomy.  Each Python exception class
  becomes a constructor carrying the data its constructor stores:
  AuthenticationError(message) [status 401], ConnectionError(message)
  [status None], FileNotFoundError(path) [status 404, message
  "File not found: {path}"], ValidationError(message) [status 400],
  ObsidianError(message, status_code).
-/
inductive ObsidianExc where
  | authenticationError (message : Str)
  | connectionError (message : Str)
  | fileNotFoundError (path : Str)
  | validationError (message : Str)
  | obsidianError (message : Str) (statusCode : Option Int)
deriving DecidableEq, Repr

/-- The message field set by each errors.py constructor. -/
def excMessage : ObsidianExc → Str
  | .authenticationError m => m
  | .connectionError m => m
  | .fileNotFoundError p => "File not found: ".data ++ p
  | .validationError m => m
  | .obsidianError m _ => m

/-- The status_code field set by each errors.py constructor. -/
def excStatusCode : ObsidianExc → Option Int
  | .authenticationError _ => some 401
  | .connectionError _ => none
  | .fileNotFoundError _ => some 404
  | .validationError _ => some 400
  | .obsidianError _ c => c

/-- The Python class name (error.__class__.__name__, used by
format_error_for_mcp's "type" field). -/
def kindName : ObsidianExc → Str
  | .authenticationError _ => "AuthenticationError".data
  | .connectionError _ => "ConnectionError".data
  | .fileNotFoundError _ => "FileNotFoundError".data
  | .validationError _ => "ValidationError".data
  | .obsidianError _ _ => "ObsidianError".data

/-- ObsidianError.__str__: "[{status_code}] {message}" when status_code is
truthy (not None and not 0), otherwise just the message. -/
def excStr (e : ObsidianExc) : Str :=
  match excStatusCode e with
  | some c => if c = 0 then excMessage e
              else "[".data ++ (toString c).data ++ "] ".data ++ excMessage e
  | none => excMessage e

/-
  obsidian.py — ObsidianClient._safe_call.  The wrapped call's behaviour is
  modelled explicitly: it returns a value, raises requests.HTTPError (with a
  status code, the response URL, str(e), and the response body's JSON parse
  attempt), raises requests.ConnectionError, or raises some other exception.
-/

/-- Result of e.response.json() when the body parses: the message and
errorCode fields looked up with dict.get (absent fields are none). -/
structure ErrBody where
  message : Option Str
  errorCode : Option Int
deriving DecidableEq, Repr

/-- Behaviour of the function wrapped by _safe_call. -/
inductive CallOutcome (α : Type) where
  | ok (a : α)
  | httpError (status : Int) (url : Str) (strE : Str) (body : Option ErrBody)
  | connectionRefused
  | otherError (msg : Str)

/-- Path extraction on the 404 branch of _safe_call:
e.response.url.split("/vault/")[-1] if "/vault/" in e.response.url
else "unknown". -/
def resolvedPath (url : Str) : Str :=
  if containsSub "/vault/".data url then
    (pySplit "/vault/".data url).getLastD url
  else "unknown".data

/-- ObsidianClient._safe_call (obsidian.py lines 54-100). -/
def safe_call {α : Type} (baseUrl : Str) : CallOutcome α → Except ObsidianExc α
  | .ok a => .ok a
  | .httpError status url strE body =>
    if status = 401 then
      .error (.authenticationError "Authentication failed. Check your API key.".data)
    else if status = 404 then
      .error (.fileNotFoundError (resolvedPath url))
    else
      match body with
      | some d =>
        .error (.obsidianError (d.message.getD strE) (some (d.errorCode.getD status)))
      | none => .error (.obsidianError strE (some status))
  | .connectionRefused =>
    .error (.connectionError ("Failed to connect to Obsidian API at ".data ++ baseUrl))
  | .otherError msg =>
    .error (.obsidianError ("Unexpected error: ".data ++ msg) none)

/-
  obsidian.py — file operations.  Each operation builds a fixed HTTP request
  against the vault URL and pipes the call outcome through _safe_call.
  Headers are constant per operation (bearer token, content type, and for
  json-format reads an Accept header) and carry no path-dependent data, so
  the request record keeps the method, url and body.
-/

structure HttpRequest where
  method : Str
  url : Str
  body : Option Str
deriving DecidableEq, Repr

/-- The url f"{base_url}/vault/{filepath}" used by the file operations. -/
def vaultUrl (baseUrl filepath : Str) : Str :=
  baseUrl ++ "/vault/".data ++ filepath

/-- The single GET issued by ObsidianClient.get_file_contents. -/
def get_file_contents_request (baseUrl filepath : Str) : HttpRequest :=
  ⟨"GET".data, vaultUrl baseUrl filepath, none⟩

/-- ObsidianClient.get_file_contents: one GET, outcome through _safe_call. -/
def get_file_contents (baseUrl filepath : Str) (outcome : CallOutcome Str) :
    Except ObsidianExc Str :=
  safe_call baseUrl outcome

/-- The single PUT issued by ObsidianClient.create_or_update_file; the body
is the content argument, written verbatim (overwrite). -/
def create_or_update_file_request (baseUrl filepath content : Str) : HttpRequest :=
  ⟨"PUT".data, vaultUrl baseUrl filepath, some content⟩

/-- ObsidianClient.create_or_update_file: one PUT through _safe_call. -/
def create_or_update_file (baseUrl filepath : Str) (outcome : CallOutcome Unit) :
    Except ObsidianExc Unit :=
  safe_call (α := Unit) baseUrl outcome

/-- The single POST issued by ObsidianClient.append_content (obsidian.py
lines 162-183); the request body is the content argument verbatim. -/
def append_content_request (baseUrl filepath content : Str) : HttpRequest :=
  ⟨"POST".data, vaultUrl baseUrl filepath, some content⟩

/-- The complete request trace of one append_content call: exactly the one
POST (the method performs no other network activity). -/
def append_content_requests (baseUrl filepath content : Str) : List HttpRequest :=
  [append_content_request baseUrl filepath content]

/-- ObsidianClient.append_content: one POST through _safe_call. -/
def append_content (baseUrl filepath : Str) (outcome : CallOutcome Unit) :
    Except ObsidianExc Unit :=
  safe_call (α := Unit) baseUrl outcome

/-- The single DELETE issued by ObsidianClient.delete_file. -/
def delete_file_request (baseUrl filepath : Str) : HttpRequest :=
  ⟨"DELETE".data, vaultUrl baseUrl filepath, none⟩

/-- ObsidianClient.delete_file: one DELETE through _safe_call. -/
def delete_file (baseUrl filepath : Str) (outcome : CallOutcome Unit) :
    Except ObsidianExc Unit :=
  safe_call (α := Unit) baseUrl outcome

/-- The single PATCH issued by ObsidianClient.patch_content; the
operation/target metadata travel in headers, the content in the body. -/
def patch_content_request (baseUrl filepath content : Str) : HttpRequest :=
  ⟨"PATCH".data, vaultUrl baseUrl filepath, some content⟩

/-
  obsidian.py — parse_frontmatter (lines 545-568).  yaml.safe_load is an
  external library; it is passed in as a total function returning none when
  parsing fails or raises (the surrounding try/except maps any exception to
  the empty dict) and none also stands for a YAML null result, which the
  `or {}` maps to the empty dict as well.
-/

abbrev Frontmatter := List (Str × Str)

/-- ObsidianClient.parse_frontmatter: returns {} unless the content starts
with "---" at position 0 and a second "---" occurs at index ≥ 3; otherwise
parses the stripped slice between the markers, with every failure mapped to
{}. -/
def parse_frontmatter (yamlParse : Str → Option Frontmatter) (content : Str) :
    Frontmatter :=
  if pyStartswith "---".data content then
    match findSub "---".data (content.drop 3) with
    | none => []
    | some k => (yamlParse (pyStrip ((content.drop 3).take k))).getD []
  else []

/-
  obsidian.py — get_batch_file_contents (lines 570-590).  The per-path
  network behaviour is supplied as a responder mapping each file path to the
  outcome of its GET.
-/

/-- The section the loop body of get_batch_file_contents appends for one
file path: content on success, an inline error message on any exception. -/
def sectionFor (baseUrl : Str) (responder : Str → CallOutcome Str)
    (filepath : Str) : Str :=
  match get_file_contents baseUrl filepath (responder filepath) with
  | .ok content =>
    "# ".data ++ filepath ++ "\n\n".data ++ content ++ "\n\n---\n\n".data
  | .error e =>
    "# ".data ++ filepath ++ "\n\nError reading file: ".data ++ excStr e
      ++ "\n\n---\n\n".data

/-- The result list built by the loop of get_batch_file_contents, one
section per input path, in input order. -/
def batchSections (baseUrl : Str) (responder : Str → CallOutcome Str) :
    List Str → List Str
  | [] => []
  | fp :: rest => sectionFor baseUrl responder fp :: batchSections baseUrl responder rest

/-- ObsidianClient.get_batch_file_contents: "".join(result). -/
def get_batch_file_contents (baseUrl : Str) (responder : Str → CallOutcome Str)
    (filepaths : List Str) : Str :=
  (batchSections baseUrl responder filepaths).flatten

/-
  tools/base.py — ToolHandler result formatting and path validation.
-/

/-- One textual content block (TextContent(type="text", text=...)). -/
structure TextContent where
  text : Str
deriving DecidableEq, Repr

/-- ToolHandler.handle_error (base.py lines 87-101): formats the error with
format_error_for_mcp and returns a single text block
"Error: {error_data['error']['message']}", where that message is str(error). -/
def handle_error (e : ObsidianExc) : List TextContent :=
  [⟨"Error: ".data ++ excStr e⟩]

/-- FileOperationToolHandler.validate_filepath (base.py lines 107-127):
reject falsy paths, then strip one leading "/" if present. -/
def validate_filepath (filepath : Option Str) : Except ObsidianExc Str :=
  if pyFalsyStr filepath then
    .error (.validationError "File path is required".data)
  else
    let fp := filepath.getD []
    if pyStartswith "/".data fp then .ok (fp.drop 1) else .ok fp

/-- FolderOperationToolHandler.validate_dirpath (base.py lines 141-165):
reject falsy paths, strip one leading "/", append a trailing "/" when
missing. -/
def validate_dirpath (dirpath : Option Str) : Except ObsidianExc Str :=
  if pyFalsyStr dirpath then
    .error (.validationError "Directory path is required".data)
  else
    let dp := dirpath.getD []
    let dp := if pyStartswith "/".data dp then dp.drop 1 else dp
    if pyEndswith "/".data dp then .ok dp else .ok (dp ++ "/".data)

/-
  tools/files.py — per-tool argument dictionaries and validate_args.
  An argument dictionary is modelled as a record of optional fields
  (args.get returning none for an absent key).
-/

structure ReadNoteArgs where
  path : Option Str
  format : Option Str
deriving DecidableEq, Repr

/-- ReadNoteToolHandler.validate_args (files.py lines 51-64). -/
def readNote_validate_args (args : ReadNoteArgs) : Except ObsidianExc (Str × Str) :=
  match validate_filepath args.path with
  | .error e => .error e
  | .ok fp =>
    let format := args.format.getD "markdown".data
    if format ∉ ["markdown".data, "json".data] then
      .error (.validationError ("Invalid format: ".data ++ format
        ++ ". Must be 'markdown' or 'json'.".data))
    else .ok (fp, format)

structure NoteContentArgs where
  path : Option Str
  content : Option Str
deriving DecidableEq, Repr

/-- CreateNoteToolHandler.validate_args (files.py lines 118-131): path
validated first, then `if not content` rejects an absent or empty body. -/
def createNote_validate_args (args : NoteContentArgs) :
    Except ObsidianExc (Str × Str) :=
  match validate_filepath args.path with
  | .error e => .error e
  | .ok fp =>
    if pyFalsyStr args.content then
      .error (.validationError "Content is required".data)
    else .ok (fp, args.content.getD [])

/-- AppendNoteToolHandler.validate_args (files.py lines 178-191): the same
checks as the create handler. -/
def appendNote_validate_args (args : NoteContentArgs) :
    Except ObsidianExc (Str × Str) :=
  match validate_filepath args.path with
  | .error e => .error e
  | .ok fp =>
    if pyFalsyStr args.content then
      .error (.validationError "Content is required".data)
    else .ok (fp, args.content.getD [])

structure PatchNoteArgs where
  path : Option Str
  operation : Option Str
  target_type : Option Str
  target : Option Str
  content : Option Str
  create_target_if_missing : Option Bool
deriving DecidableEq, Repr

/-- The validated argument record built by PatchNoteToolHandler. -/
structure PatchNoteValidated where
  path : Str
  operation : Str
  target_type : Str
  target : Str
  content : Str
  create_target_if_missing : Bool
deriving DecidableEq, Repr

/-- PatchNoteToolHandler.validate_args (files.py lines 259-294): path, then
operation/target_type enum membership, then required target and content,
then the create flag with default True. -/
def patchNote_validate_args (args : PatchNoteArgs) :
    Except ObsidianExc PatchNoteValidated :=
  match validate_filepath args.path with
  | .error e => .error e
  | .ok fp =>
    let operation := args.operation.getD "append".data
    if operation ∉ ["append".data, "prepend".data, "replace".data] then
      .error (.validationError ("Invalid operation: ".data ++ operation
        ++ ". Must be 'append', 'prepend', or 'replace'.".data))
    else
      let target_type := args.target_type.getD "heading".data
      if target_type ∉ ["heading".data, "block".data, "frontmatter".data] then
        .error (.validationError ("Invalid target_type: ".data ++ target_type
          ++ ". Must be 'heading', 'block', or 'frontmatter'.".data))
      else if pyFalsyStr args.target then
        .error (.validationError "Target is required".data)
      else if pyFalsyStr args.content then
        .error (.validationError "Content is required".data)
      else
        .ok ⟨fp, operation, target_type, args.target.getD [],
             args.content.getD [], args.create_target_if_missing.getD true⟩

structure DeleteNoteArgs where
  path : Option Str
  confirm : Option Bool
deriving DecidableEq, Repr

/-- DeleteNoteToolHandler.validate_args (files.py lines 346-359): path, then
`if not confirm` with confirm defaulting to False. -/
def deleteNote_validate_args (args : DeleteNoteArgs) :
    Except ObsidianExc (Str × Bool) :=
  match validate_filepath args.path with
  | .error e => .error e
  | .ok fp =>
    let confirm := args.confirm.getD false
    if !confirm then
      .error (.validationError "Confirm must be true to delete a note".data)
    else .ok (fp, confirm)

/-
  tools/files.py — run_tool bodies.  Each run_tool wraps its whole body in
  try/except Exception and funnels any raised error through handle_error.
  The client call's network behaviour is supplied as the outcome of the one
  HTTP request the operation performs; the json.dumps serializer of the
  json-format read is supplied as a function.
-/

/-- ReadNoteToolHandler.run_tool (files.py lines 66-87): fetch the note via
get_file_contents; on success one text block (json.dumps output for the json
format, the raw text otherwise); on any exception, handle_error. -/
def readNote_run_tool (baseUrl : Str) (dumps : Str → Str) (path format : Str)
    (outcome : CallOutcome Str) : List TextContent :=
  match get_file_contents baseUrl path outcome with
  | .ok content =>
    if format = "json".data then [⟨dumps content⟩] else [⟨content⟩]
  | .error e => handle_error e

/-- AppendNoteToolHandler.run_tool (files.py lines 193-207): delegate to
append_content; on success a confirmation block, on any exception
handle_error. -/
def appendNote_run_tool (baseUrl : Str) (path content : Str)
    (outcome : CallOutcome Unit) : List TextContent :=
  match append_content baseUrl path outcome with
  | .ok _ =>
    [⟨"Successfully appended content to note at ".data ++ path⟩]
  | .error e => handle_error e

/-- DeleteNoteToolHandler.run_tool (files.py lines 361-372). -/
def deleteNote_run_tool (baseUrl : Str) (path : Str)
    (outcome : CallOutcome Unit) : List TextContent :=
  match delete_file baseUrl path outcome with
  | .ok _ => [⟨"Successfully deleted note at ".data ++ path⟩]
  | .error e => handle_error e

/-
  Tool invocation pipeline.  The handler classes separate validate_args from
  run_tool; the dispatcher that chains them is not itself among the sources
  (server.py registers independent FastMCP coroutines instead of these
  handlers), so the chaining is modelled from the spec.  Each invocation
  returns the content blocks together with the list of HTTP requests that
  reached the transport.
-/

/-- Modelled from the spec: the dispatcher wiring validate_args before
run_tool is absent from the sources; spec §4.4 requires the adapter to
validate presence/type/enum membership of each argument before invoking the
operation.  Validation failure short-circuits with handle_error and no
request reaches the transport. -/
def invokeReadNote (baseUrl : Str) (dumps : Str → Str) (args : ReadNoteArgs)
    (outcome : CallOutcome Str) : List TextContent × List HttpRequest :=
  match readNote_validate_args args with
  | .error e => (handle_error e, [])
  | .ok (fp, format) =>
    (readNote_run_tool baseUrl dumps fp format outcome,
     [get_file_contents_request baseUrl fp])

/-- Modelled from the spec: dispatcher for the delete tool, as for
invokeReadNote. -/
def invokeDeleteNote (baseUrl : Str) (args : DeleteNoteArgs)
    (outcome : CallOutcome Unit) : List TextContent × List HttpRequest :=
  match deleteNote_validate_args args with
  | .error e => (handle_error e, [])
  | .ok (fp, _) =>
    (deleteNote_run_tool baseUrl fp outcome, [delete_file_request baseUrl fp])

/-- Modelled from the spec: dispatcher for the patch tool, as for
invokeReadNote. -/
def invokePatchNote (baseUrl : Str) (args : PatchNoteArgs)
    (outcome : CallOutcome Unit) : List TextContent × List HttpRequest :=
  match patchNote_validate_args args with
  | .error e => (handle_error e, [])
  | .ok v =>
    (match safe_call (α := Unit) baseUrl outcome with
     | .ok _ => [⟨"Successfully patched content in note at ".data ++ v.path⟩]
     | .error e => handle_error e,
     [patch_content_request baseUrl v.path v.content])

/-
  server.py — obsidian_search (lines 394-440): the bare-filename query
  rewriting heuristic applied before dispatching to the search call.
-/

/-- The query normalization inside obsidian_search: a query ending in ".md"
with no space and no ":" becomes "file:{query}"; otherwise it is passed
through unchanged. -/
def rewriteSearchQuery (query : Str) : Str :=
  if pyEndswith ".md".data query && !query.contains ' ' && !query.contains ':'
  then "file:".data ++ query
  else query

/-
  server.py — obsidian_create_note (lines 203-243) delegates to
  client.create_note(path, content, metadata).
-/

/-- Modelled from the spec: the client.create_note implementation invoked by
server.py's obsidian_create_note is absent from the sources (ObsidianClient
only offers create_or_update_file, which takes no metadata).  Spec §4.3 and
§3: the operation writes the full body, prefixing a metadata block built by
serializing the map as "key: value" lines, bounded by the fixed marker line
"---" at position 0 and again after the block; the write always overwrites.
Metadata values are taken already rendered to text. -/
def create_note_body (metadata : Option (List (Str × Str))) (content : Str) : Str :=
  match metadata with
  | none => content
  | some kvs =>
    "---\n".data
      ++ (kvs.map (fun kv => kv.1 ++ ": ".data ++ kv.2 ++ "\n".data)).flatten
      ++ "---\n".data ++ content

/-- The first line of a body (text before the first newline). -/
def firstLine (s : Str) : Str := s.takeWhile (· ≠ '\n')

/-
  =====================  Claims  =====================
-/

/-- C1: the error-handling wrapper _safe_call maps an HTTP 401 to the
authentication-failure kind, an HTTP 404 to the not-found kind carrying the
resolved resource path, a connection failure to the connection-failure kind
carrying the base URL, any other non-2xx to ObsidianError carrying the
body's message and errorCode when the body parses (falling back to str(e)
and the status otherwise), and any other exception to ObsidianError wrapping
the original message prefixed "Unexpected error: ". -/
theorem safe_call_error_taxonomy (baseUrl url strE msg m : Str)
    (status : Int) (c : Int) (body : Option ErrBody) :
    (safe_call (α := Unit) baseUrl (.httpError 401 url strE body)
      = .error (.authenticationError
          "Authentication failed. Check your API key.".data)) ∧
    (safe_call (α := Unit) baseUrl (.httpError 404 url strE body)
      = .error (.fileNotFoundError (resolvedPath url))) ∧
    (safe_call (α := Unit) baseUrl .connectionRefused
      = .error (.connectionError
          ("Failed to connect to Obsidian API at ".data ++ baseUrl))) ∧
    (status ≠ 401 → status ≠ 404 →
      safe_call (α := Unit) baseUrl
          (.httpError status url strE (some ⟨some m, some c⟩))
        = .error (.obsidianError m (some c))) ∧
    (status ≠ 401 → status ≠ 404 →
      safe_call (α := Unit) baseUrl (.httpError status url strE none)
        = .error (.obsidianError strE (some status))) ∧
    (safe_call (α := Unit) baseUrl (.otherError msg)
      = .error (.obsidianError ("Unexpected error: ".data ++ msg) none)) := by
  refine ⟨by simp [safe_call], by simp [safe_call], rfl, ?_, ?_, rfl⟩
  · intro h1 h2
    simp [safe_call, h1, h2, Option.getD]
  · intro h1 h2
    simp [safe_call, h1, h2]

/-- Witness for C1 at concrete inputs: HTTP 500 with body
{"message":"x","errorCode":7} yields ObsidianError with message "x" and
code 7. -/
theorem safe_call_error_taxonomy_witness :
    safe_call (α := Unit) "https://h".data
        (.httpError 500 "u".data "E".data (some ⟨some "x".data, some 7⟩))
      = .error (.obsidianError "x".data (some 7)) :=
  (safe_call_error_taxonomy "https://h".data "u".data "E".data [] "x".data
    500 7 (some ⟨some "x".data, some 7⟩)).2.2.2.1 (by decide) (by decide)

/-- C2 counterexample: append_content issues exactly one POST whose body is
the new content verbatim — its request trace contains no preceding read, and
the written body is not the concatenation of the old body, a blank line and
the new content. -/
theorem append_no_read_before_write_cex :
    append_content_requests "https://h".data "n.md".data "A".data
      = [⟨"POST".data, "https://h/vault/n.md".data, some "A".data⟩] ∧
    ("A".data ≠ "B".data ++ "\n\n".data ++ "A".data) := by
  decide

/-- C2 (amended): the append operation issues a single POST to the note's
vault URL carrying the new content verbatim as the body (the remote API
performs the append; this layer neither reads the current body first nor
inserts a blank-line separator), and an HTTP 404 outcome surfaces the
not-found kind. -/
theorem append_single_post_amended (baseUrl filepath content url strE : Str)
    (body : Option ErrBody) :
    append_content_requests baseUrl filepath content
      = [⟨"POST".data, vaultUrl baseUrl filepath, some content⟩] ∧
    append_content baseUrl filepath (.httpError 404 url strE body)
      = .error (.fileNotFoundError (resolvedPath url)) := by
  refine ⟨rfl, by simp [append_content, safe_call]⟩

/-- C3 counterexample: the caller-supplied path "/" canonicalizes to the
empty path, and "//a" keeps a leading slash, so the outgoing-path invariant
(non-empty, no leading '/') fails; the directory path "/" canonicalizes to
"/" itself, which also keeps a leading slash. -/
theorem path_canonicalization_cex :
    validate_filepath (some "/".data) = .ok [] ∧
    validate_filepath (some "//a".data) = .ok "/a".data ∧
    validate_dirpath (some "/".data) = .ok "/".data :=
  ⟨rfl, rfl, rfl⟩

/-- C3 (amended): validate_filepath strips exactly one leading '/' and
passes other non-empty paths through; the no-leading-slash and non-empty
guarantees hold whenever the input does not collapse to the empty path
(i.e. it is not "/" and does not start with "//"); validate_dirpath always
produces a non-empty path ending in '/', appending the trailing '/' when it
is missing. -/
theorem path_canonicalization_amended (p d : Str) :
    (p ≠ [] → pyStartswith "/".data p = true →
      validate_filepath (some p) = .ok (p.drop 1)) ∧
    (p ≠ [] → pyStartswith "/".data p = false →
      validate_filepath (some p) = .ok p) ∧
    (∀ c rest, p = '/' :: c :: rest → c ≠ '/' →
      validate_filepath (some p) = .ok (c :: rest) ∧
      (c :: rest : Str) ≠ [] ∧ pyStartswith "/".data (c :: rest) = false) ∧
    (d ≠ [] → ∃ r, validate_dirpath (some d) = .ok r ∧
      pyEndswith "/".data r = true ∧ r ≠ []) ∧
    (d ≠ [] → pyStartswith "/".data d = false →
      pyEndswith "/".data d = false →
      validate_dirpath (some d) = .ok (d ++ "/".data)) := by
  refine ⟨?_, ?_, ?_, ?_, ?_⟩
  · intro hp hpre
    cases p with
    | nil => exact absurd rfl hp
    | cons c cs =>
      simp [validate_filepath, pyFalsyStr, hpre]
  · intro hp hpre
    cases p with
    | nil => exact absurd rfl hp
    | cons c cs =>
      simp [validate_filepath, pyFalsyStr, hpre]
  · intro c rest hp hc
    subst hp
    have hpre : pyStartswith "/".data ('/' :: c :: rest) = true := by
      simp [pyStartswith, List.isPrefixOf]
    refine ⟨by simp [validate_filepath, pyFalsyStr, hpre], by simp, ?_⟩
    simp [pyStartswith, List.isPrefixOf, hc]
    intro h
    exact absurd h.symm hc
  · intro hd
    cases d with
    | nil => exact absurd rfl hd
    | cons c cs =>
      by_cases hpre : pyStartswith "/".data (c :: cs) = true
      · by_cases hend : pyEndswith ['/'] cs = true
        · refine ⟨cs, ?_, hend, ?_⟩
          · simp [validate_dirpath, pyFalsyStr, hpre, hend]
          · intro h
            rw [h] at hend
            simp [pyEndswith, List.isSuffixOf, List.isPrefixOf] at hend
        · refine ⟨cs ++ "/".data, ?_, ?_, by simp⟩
          · simp [validate_dirpath, pyFalsyStr, hpre, hend]
          · simp [pyEndswith, List.isSuffixOf, List.isPrefixOf]
      · by_cases hend : pyEndswith "/".data (c :: cs) = true
        · refine ⟨c :: cs, ?_, hend, by simp⟩
          simp [validate_dirpath, pyFalsyStr, hpre, hend]
        · refine ⟨(c :: cs) ++ "/".data, ?_, ?_, by simp⟩
          · simp [validate_dirpath, pyFalsyStr, hpre, hend]
          · simp [pyEndswith, List.isSuffixOf, List.isPrefixOf]
  · intro hd hpre hend
    cases d with
    | nil => exact absurd rfl hd
    | cons c cs =>
      simp [validate_dirpath, pyFalsyStr, hpre, hend]

/-- C4: a tool invocation with a missing required field (path), a
disallowed enum value (format, operation), or a false/missing delete
confirmation flag fails validation with the ValidationError kind and the
transport observes zero requests; and the ValidationError kind is distinct
from every remote-error kind. -/
theorem validation_before_network (baseUrl p fmt op tt : Str)
    (tg ct : Option Str) (cf : Option Bool) (dumps : Str → Str)
    (ocS : CallOutcome Str) (ocU : CallOutcome Unit) :
    (invokeReadNote baseUrl dumps ⟨none, some fmt⟩ ocS
      = (handle_error (.validationError "File path is required".data), [])) ∧
    (p ≠ [] → fmt ∉ ["markdown".data, "json".data] →
      invokeReadNote baseUrl dumps ⟨some p, some fmt⟩ ocS
        = (handle_error (.validationError ("Invalid format: ".data ++ fmt
            ++ ". Must be 'markdown' or 'json'.".data)), [])) ∧
    (p ≠ [] →
      invokeDeleteNote baseUrl ⟨some p, none⟩ ocU
        = (handle_error
            (.validationError "Confirm must be true to delete a note".data), []) ∧
      invokeDeleteNote baseUrl ⟨some p, some false⟩ ocU
        = (handle_error
            (.validationError "Confirm must be true to delete a note".data), [])) ∧
    (p ≠ [] → op ∉ ["append".data, "prepend".data, "replace".data] →
      invokePatchNote baseUrl ⟨some p, some op, some tt, tg, ct, cf⟩ ocU
        = (handle_error (.validationError ("Invalid operation: ".data ++ op
            ++ ". Must be 'append', 'prepend', or 'replace'.".data)), [])) ∧
    (∀ m m2 p2 c, ObsidianExc.validationError m ≠ .authenticationError m2 ∧
      ObsidianExc.validationError m ≠ .connectionError m2 ∧
      ObsidianExc.validationError m ≠ .fileNotFoundError p2 ∧
      ObsidianExc.validationError m ≠ .obsidianError m2 c) := by
  refine ⟨rfl, ?_, ?_, ?_, ?_⟩
  · intro hp hfmt
    cases p with
    | nil => exact absurd rfl hp
    | cons a as =>
      by_cases hpre : pyStartswith "/".data (a :: as) = true <;>
        simp [invokeReadNote, readNote_validate_args, validate_filepath,
          pyFalsyStr, hpre, hfmt]
  · intro hp
    cases p with
    | nil => exact absurd rfl hp
    | cons a as =>
      constructor <;>
        (by_cases hpre : pyStartswith "/".data (a :: as) = true <;>
          simp [invokeDeleteNote, deleteNote_validate_args, validate_filepath,
            pyFalsyStr, hpre])
  · intro hp hop
    cases p with
    | nil => exact absurd rfl hp
    | cons a as =>
      by_cases hpre : pyStartswith "/".data (a :: as) = true <;>
        simp [invokePatchNote, patchNote_validate_args, validate_filepath,
          pyFalsyStr, hpre, hop]
  · intro m m2 p2 c
    refine ⟨by simp, by simp, by simp, by simp⟩

/-- Witness for C4 at concrete inputs: path "a.md", disallowed format
"xml", disallowed operation "insert". -/
theorem validation_before_network_witness :
    (invokeReadNote [] (fun s => s) ⟨some "a.md".data, some "xml".data⟩
        (.ok [])
      = (handle_error (.validationError ("Invalid format: ".data
          ++ "xml".data ++ ". Must be 'markdown' or 'json'.".data)), [])) ∧
    (invokeDeleteNote [] ⟨some "a.md".data, some false⟩ (.ok ())
      = (handle_error
          (.validationError "Confirm must be true to delete a note".data), [])) ∧
    (invokePatchNote []
        ⟨some "a.md".data, some "insert".data, some "heading".data,
         some "h".data, some "c".data, none⟩ (.ok ())
      = (handle_error (.validationError ("Invalid operation: ".data
          ++ "insert".data
          ++ ". Must be 'append', 'prepend', or 'replace'.".data)), [])) :=
  ⟨((validation_before_network [] "a.md".data "xml".data "insert".data
      "heading".data (some "h".data) (some "c".data) none (fun s => s)
      (.ok []) (.ok ())).2.1 (by decide) (by decide)),
   ((validation_before_network [] "a.md".data "xml".data "insert".data
      "heading".data (some "h".data) (some "c".data) none (fun s => s)
      (.ok []) (.ok ())).2.2.1 (by decide)).2,
   ((validation_before_network [] "a.md".data "xml".data "insert".data
      "heading".data (some "h".data) (some "c".data) none (fun s => s)
      (.ok []) (.ok ())).2.2.2.1 (by decide) (by decide))⟩

/-- Helper: a search for a needle inside pre ++ needle succeeds. -/
theorem findSub_append_isSome (needle pre : Str) :
    (findSub needle (pre ++ needle)).isSome = true := by
  induction pre with
  | nil =>
    cases needle with
    | nil => simp [findSub]
    | cons c rest =>
      have : List.isPrefixOf (c :: rest) (c :: rest) = true := by
        simp [List.isPrefixOf_iff_prefix]
      simp [findSub, this]
  | cons a pre ih =>
    by_cases h : needle <+: a :: (pre ++ needle)
    · simp [findSub, h]
    · simpa [findSub, h] using ih

/-- Helper: substring containment of a suffix. -/
theorem containsSub_suffix (needle pre : Str) :
    containsSub needle (pre ++ needle) = true := by
  simpa [containsSub] using findSub_append_isSome needle pre

/-- Helper: excStr always ends with the error's message (the optional
"[status] " status prefix comes before it). -/
theorem excStr_append_message (e : ObsidianExc) :
    ∃ pre, excStr e = pre ++ excMessage e := by
  unfold excStr
  cases hst : excStatusCode e with
  | none => exact ⟨[], rfl⟩
  | some c =>
    by_cases hc : c = 0
    · exact ⟨[], by simp [hc]⟩
    · exact ⟨"[".data ++ (toString c).data ++ "] ".data, by simp [hc]⟩

/-- C5 counterexample: the error block produced for a not-found failure is
"Error: [404] File not found: a.md" — it carries the message (with status
code) but does not contain the failure kind name "FileNotFoundError". -/
theorem error_block_lacks_kind_name_cex :
    handle_error (.fileNotFoundError "a.md".data)
      = [⟨"Error: [404] File not found: a.md".data⟩] ∧
    containsSub (kindName (.fileNotFoundError "a.md".data))
      "Error: [404] File not found: a.md".data = false := by
  constructor
  · decide
  · decide

/-- C5 (amended): each run_tool catches every failure kind at its outermost
boundary and always returns exactly one textual content block; on a failure
the block is "Error: " followed by str(error) — the status-prefixed message,
which always contains the failure's message, but not the kind name. -/
theorem tool_error_single_block_amended (baseUrl : Str) (dumps : Str → Str)
    (path format content : Str) (oc : CallOutcome Str)
    (ocU : CallOutcome Unit) (e : ObsidianExc) :
    (readNote_run_tool baseUrl dumps path format oc).length = 1 ∧
    (appendNote_run_tool baseUrl path content ocU).length = 1 ∧
    (deleteNote_run_tool baseUrl path ocU).length = 1 ∧
    handle_error e = [⟨"Error: ".data ++ excStr e⟩] ∧
    containsSub (excMessage e) ("Error: ".data ++ excStr e) = true := by
  refine ⟨?_, ?_, ?_, rfl, ?_⟩
  · cases h : get_file_contents baseUrl path oc with
    | ok v =>
      by_cases hf : format = "json".data <;>
        simp [readNote_run_tool, h, hf, handle_error]
    | error e2 => simp [readNote_run_tool, h, handle_error]
  · cases h : append_content baseUrl path ocU with
    | ok v => simp [appendNote_run_tool, h, handle_error]
    | error e2 => simp [appendNote_run_tool, h, handle_error]
  · cases h : delete_file baseUrl path ocU with
    | ok v => simp [deleteNote_run_tool, h, handle_error]
    | error e2 => simp [deleteNote_run_tool, h, handle_error]
  · obtain ⟨pre, hpre⟩ := excStr_append_message e
    rw [hpre, ← List.append_assoc]
    exact containsSub_suffix (excMessage e) ("Error: ".data ++ pre)

/-- C6: creating a note with metadata {tags: v} produces a full body whose
metadata block serializes the map as "key: value" lines between the
front-matter markers: the body is the block-open marker line, the "tags"
line, the block-close marker line, then the content, so its first line is
the marker and "tags" occurs before the closing marker; the underlying
write is a single PUT carrying the full body (always an overwrite), and a
markdown read returns the stored body verbatim, so the read-back body is
the same string. -/
theorem create_note_metadata_block (v c baseUrl fp body2 : Str) :
    create_note_body (some [("tags".data, v)]) c
      = "---\n".data ++ "tags: ".data ++ v ++ "\n".data ++ "---\n".data ++ c ∧
    firstLine (create_note_body (some [("tags".data, v)]) c) = "---".data ∧
    create_or_update_file_request baseUrl fp body2
      = ⟨"PUT".data, vaultUrl baseUrl fp, some body2⟩ ∧
    get_file_contents baseUrl fp (.ok body2) = .ok body2 := by
  refine ⟨?_, rfl, rfl, rfl⟩
  simp [create_note_body]

/-- C7: a search query ending in ".md" with no space and no ':' operator
character is rewritten to the filename-search form "file:{query}" before
dispatch; any query containing a space or a ':' is passed through
unchanged. -/
theorem search_query_rewriting (q : Str) :
    (pyEndswith ".md".data q = true → q.contains ' ' = false →
      q.contains ':' = false → rewriteSearchQuery q = "file:".data ++ q) ∧
    (q.contains ' ' = true ∨ q.contains ':' = true →
      rewriteSearchQuery q = q) := by
  constructor
  · intro h1 h2 h3
    have h2m : ' ' ∉ q := by simpa using h2
    have h3m : ':' ∉ q := by simpa using h3
    simp [rewriteSearchQuery, h1, h2m, h3m]
  · intro h
    cases h with
    | inl h =>
      have hm : ' ' ∈ q := by simpa using h
      simp [rewriteSearchQuery, hm]
    | inr h =>
      have hm : ':' ∈ q := by simpa using h
      simp [rewriteSearchQuery, hm]

/-- Witness for C7 at concrete inputs: "note.md" is rewritten, a query with
a space and a query with an operator pass through. -/
theorem search_query_rewriting_witness :
    rewriteSearchQuery "note.md".data = "file:".data ++ "note.md".data ∧
    rewriteSearchQuery "readme file.md".data = "readme file.md".data ∧
    rewriteSearchQuery "file:x.md".data = "file:x.md".data :=
  ⟨(search_query_rewriting "note.md".data).1 (by decide) (by decide)
      (by decide),
   (search_query_rewriting "readme file.md".data).2 (Or.inl (by decide)),
   (search_query_rewriting "file:x.md".data).2 (Or.inr (by decide))⟩

/-- C8: front-matter parsing is total (it returns a dictionary for every
input and every behaviour of the YAML parser) and returns the empty result
both when the content does not begin with the block-open marker at position
0 and when the closing marker is absent later in the text. -/
theorem parse_frontmatter_best_effort (yamlParse : Str → Option Frontmatter)
    (content : Str) :
    (pyStartswith "---".data content = false →
      parse_frontmatter yamlParse content = []) ∧
    (findSub "---".data (content.drop 3) = none →
      parse_frontmatter yamlParse content = []) := by
  constructor
  · intro h
    simp [parse_frontmatter, h]
  · intro h
    by_cases hs : pyStartswith "---".data content = true
    · simp [parse_frontmatter, hs, h]
    · simp [parse_frontmatter, hs]

/-- Witness for C8 at concrete inputs: content with no front-matter marker,
and content opening a block that never closes. -/
theorem parse_frontmatter_best_effort_witness :
    parse_frontmatter (fun _ => some [("k".data, "v".data)]) "hello".data
      = [] ∧
    parse_frontmatter (fun _ => some [("k".data, "v".data)]) "---abc".data
      = [] :=
  ⟨(parse_frontmatter_best_effort (fun _ => some [("k".data, "v".data)])
      "hello".data).1 (by decide),
   (parse_frontmatter_best_effort (fun _ => some [("k".data, "v".data)])
      "---abc".data).2 (by decide)⟩

/-- C9: the batch multi-file reader builds exactly one section per input
path, in input order (the built list is the map of the per-path section over
the inputs, so it has the same length), never raises (it is a total function
of the per-path outcomes), and a failing path contributes an inline
"Error reading file: ..." placeholder while a succeeding one contributes its
content — the remaining paths are processed either way. -/
theorem batch_read_per_item (baseUrl : Str)
    (responder : Str → CallOutcome Str) (filepaths : List Str)
    (fp content msg : Str) :
    batchSections baseUrl responder filepaths
      = filepaths.map (sectionFor baseUrl responder) ∧
    (batchSections baseUrl responder filepaths).length = filepaths.length ∧
    get_batch_file_contents baseUrl responder filepaths
      = (filepaths.map (sectionFor baseUrl responder)).flatten ∧
    sectionFor baseUrl (fun _ => .ok content) fp
      = "# ".data ++ fp ++ "\n\n".data ++ content ++ "\n\n---\n\n".data ∧
    sectionFor baseUrl (fun _ => .otherError msg) fp
      = "# ".data ++ fp ++ "\n\nError reading file: ".data
        ++ "Unexpected error: ".data ++ msg ++ "\n\n---\n\n".data := by
  have hmap : ∀ l : List Str, batchSections baseUrl responder l
      = l.map (sectionFor baseUrl responder) := by
    intro l
    induction l with
    | nil => rfl
    | cons x xs ih => simp [batchSections, ih]
  refine ⟨hmap filepaths, ?_, ?_, rfl, ?_⟩
  · rw [hmap filepaths, List.length_map]
  · rw [get_batch_file_contents, hmap filepaths]
  · simp [sectionFor, get_file_contents, safe_call, excStr, excStatusCode,
      excMessage]

/-- C10: a create-note or append-note argument dictionary whose content
field is present but equal to the empty string is rejected by validate_args
with the ValidationError kind and the message "Content is required"
(the empty string is falsy under the handlers' `if not content` test). -/
theorem empty_content_rejected (p : Str) (hp : p ≠ []) :
    createNote_validate_args ⟨some p, some []⟩
      = .error (.validationError "Content is required".data) ∧
    appendNote_validate_args ⟨some p, some []⟩
      = .error (.validationError "Content is required".data) := by
  cases p with
  | nil => exact absurd rfl hp
  | cons a as =>
    by_cases hpre : pyStartswith "/".data (a :: as) = true <;>
      exact ⟨by simp [createNote_validate_args, validate_filepath,
              pyFalsyStr, hpre],
             by simp [appendNote_validate_args, validate_filepath,
              pyFalsyStr, hpre]⟩

/-- Witness for C10 at the concrete path "a.md" with empty content. -/
theorem empty_content_rejected_witness :
    createNote_validate_args ⟨some "a.md".data, some []⟩
      = .error (.validationError "Content is required".data) ∧
    appendNote_validate_args ⟨some "a.md".data, some []⟩
      = .error (.validationError "Content is required".data) :=
  empty_content_rejected "a.md".data (by decide)

/-- Witness for the amended C3 at concrete inputs: "/nx" has its single
leading slash stripped (to the non-empty slash-free "nx"), "b.md" passes
through, and "dir" gets a trailing slash. -/
theorem path_canonicalization_amended_witness :
    validate_filepath (some ('/' :: 'n' :: 'x' :: []))
      = .ok (('/' :: 'n' :: 'x' :: []).drop 1) ∧
    validate_filepath (some "b.md".data) = .ok "b.md".data ∧
    (validate_filepath (some ('/' :: 'n' :: 'x' :: [])) = .ok ('n' :: 'x' :: [])
      ∧ ('n' :: 'x' :: [] : Str) ≠ []
      ∧ pyStartswith "/".data ('n' :: 'x' :: []) = false) ∧
    (∃ r, validate_dirpath (some "dir".data) = .ok r ∧
      pyEndswith "/".data r = true ∧ r ≠ []) ∧
    validate_dirpath (some "dir".data) = .ok ("dir".data ++ "/".data) :=
  ⟨(path_canonicalization_amended ('/' :: 'n' :: 'x' :: []) "dir".data).1
      (by decide) (by decide),
   (path_canonicalization_amended "b.md".data "dir".data).2.1
      (by decide) (by decide),
   (path_canonicalization_amended ('/' :: 'n' :: 'x' :: []) "dir".data).2.2.1
      'n' ('x' :: []) rfl (by decide),
   (path_canonicalization_amended "b.md".data "dir".data).2.2.2.1
      (by decide),
   (path_canonicalization_amended "b.md".data "dir".data).2.2.2.2
      (by decide) (by decide) (by decide)⟩
